import Mathlib

/-!
Shallow embedding of the client-side data-access layer of the
restaurant-reservation application (file `src/unnamed/part_000`):
the transport core `fetchJson` and the operation catalog built on it
(`listReservations`, `createReservation`, `listTables`, `createTable`,
`editReservation`, `updateReservationStatus`, `seatReservation`,
`finishTable`).

JavaScript runtime values are modelled by `JsValue`; a thrown or rejected
JavaScript error object by `JsError` (only its `name` and `stack` fields
matter to this code).  The behaviour of the environment on one HTTP call
(what `fetch` and `response.json()` produce) is modelled by `FetchOutcome`,
so every function of the layer becomes a total Lean function from its
arguments and the outcome of its single HTTP call to the settled state of
the promise it returns: `Except RejectVal JsValue` (rejection or resolved
value), paired with the list of messages written to `console.error`.
-/

/-- A JavaScript error object, as far as this code inspects it: its `name`
(used to recognise `AbortError`) and its `stack` (logged via
`console.error`). -/
structure JsError where
  name : String
  stack : String
deriving DecidableEq, Repr

/-- A JavaScript runtime value: `undefined`, `null`, booleans, (integer)
numbers, strings, arrays and plain objects (ordered field lists). -/
inductive JsValue where
  | undefined : JsValue
  | null : JsValue
  | bool : Bool → JsValue
  | num : Int → JsValue
  | str : String → JsValue
  | arr : List JsValue → JsValue
  | obj : List (String × JsValue) → JsValue

/-- JavaScript truthiness, as tested by `if (payload.error)` and
`if (params)`. -/
def truthy : JsValue → Bool
  | .undefined => false
  | .null => false
  | .bool b => b
  | .num n => n != 0
  | .str s => s != ""
  | .arr _ => true
  | .obj _ => true

/-- Member access `v.k`: throws a `TypeError` on `null` and `undefined`,
returns the (first) field of an object or `undefined` when the field is
absent, and `undefined` on other primitives (none of which carry the
fields this code reads). -/
def getField : JsValue → String → Except JsError JsValue
  | .undefined, k => .error ⟨"TypeError", "TypeError: cannot read " ++ k ++ " of undefined"⟩
  | .null, k => .error ⟨"TypeError", "TypeError: cannot read " ++ k ++ " of null"⟩
  | .obj fields, k => .ok ((fields.lookup k).getD .undefined)
  | _, _ => .ok .undefined

/-- A value a promise of this layer can reject with: either the plain
object `\x7bmessage: payload.error\x7d` built at line 43 of the source, or a
JavaScript error (network error, parse error, `TypeError`, ...) that was
re-thrown. -/
inductive RejectVal where
  | messageObj : JsValue → RejectVal
  | err : JsError → RejectVal

/-- The behaviour of the environment on one HTTP call: either `fetch`
resolves to a response with a status code and a body whose
`response.json()` parse result is given (`Except.error` when parsing the
body fails or the read is aborted), or `fetch` itself rejects with an
error (network failure, or `AbortError` when the signal is aborted). -/
inductive FetchOutcome where
  | response : Nat → Except JsError JsValue → FetchOutcome
  | networkError : JsError → FetchOutcome

/-- The `catch` block of `fetchJson` (source lines 46-52): an error whose
name is not `AbortError` is logged (`console.error(error.stack)`) and
re-thrown; an `AbortError` resolves to the `onCancel` fallback with no
logging. -/
def catchBlock (e : JsError) (onCancel : JsValue) :
    Except RejectVal JsValue × List String :=
  if e.name != "AbortError" then (.error (.err e), [e.stack])
  else (.ok onCancel, [])

/-- The transport core `fetchJson` (source lines 32-53), as a function of
the outcome of its HTTP call and the `onCancel` fallback.  Result: the
settled state of the returned promise, paired with the `console.error`
log.  Status 204 resolves to `null` before the body is parsed; otherwise
the parsed payload is inspected: a truthy `error` field rejects with
`\x7bmessage: payload.error\x7d` (a `return Promise.reject(...)`, not caught by
the `catch`), otherwise the promise resolves to `payload.data`.  Any
error thrown inside the `try` (fetch rejection, body-parse failure,
member access on a non-object payload) goes through `catchBlock`. -/
def fetchJson (outcome : FetchOutcome) (onCancel : JsValue) :
    Except RejectVal JsValue × List String :=
  match outcome with
  | .networkError e => catchBlock e onCancel
  | .response status body =>
    if status = 204 then (.ok .null, [])
    else
      match body with
      | .error e => catchBlock e onCancel
      | .ok payload =>
        match getField payload "error" with
        | .error e => catchBlock e onCancel
        | .ok errField =>
          if truthy errField then (.error (.messageObj errField), [])
          else
            match getField payload "data" with
            | .error e => catchBlock e onCancel
            | .ok d => (.ok d, [])

mutual

/-- String conversion used for array elements by `Array.prototype.join`
(and shared by `toString` and template-literal conversion on the other
value forms): `null` and `undefined` become the empty string inside an
array, arrays join their elements with commas, plain objects print as
`[object Object]`. -/
def joinElemString : JsValue → String
  | .undefined => ""
  | .null => ""
  | .bool b => cond b "true" "false"
  | .num n => toString n
  | .str s => s
  | .arr xs => String.intercalate "," (joinElemStrings xs)
  | .obj _ => "[object Object]"

/-- Pointwise `joinElemString` over a list of array elements. -/
def joinElemStrings : List JsValue → List String
  | [] => []
  | v :: vs => joinElemString v :: joinElemStrings vs

end

/-- The method call `v.toString()` (source line 68): throws a `TypeError`
on `null` and `undefined`, which have no properties; on every other value
it yields the standard JavaScript string conversion. -/
def jsToString : JsValue → Except JsError String
  | .undefined => .error ⟨"TypeError", "TypeError: cannot read toString of undefined"⟩
  | .null => .error ⟨"TypeError", "TypeError: cannot read toString of null"⟩
  | v => .ok (joinElemString v)

/-- Template-literal conversion `${v}` (used for the id segments of the
per-id URLs): like `toString`, except that `null` and `undefined` convert
to the strings `null` and `undefined` instead of throwing. -/
def jsTemplate : JsValue → String
  | .undefined => "undefined"
  | .null => "null"
  | v => joinElemString v

/-- `Object.entries(v)`: the own enumerable entries of an object in
insertion order; index entries for arrays and strings; empty for other
primitives.  Called only on truthy values in this code, so the `null`
and `undefined` cases never arise. -/
def jsEntries : JsValue → List (String × JsValue)
  | .obj fields => fields
  | .arr xs => xs.enum.map fun p => (toString p.1, p.2)
  | .str s => s.toList.enum.map fun p => (toString p.1, .str (String.singleton p.2))
  | _ => []

/-- The `forEach` loop of source lines 67-69: each entry `(key, value)` of
the filter mapping is converted with `value.toString()` and appended, in
order, to the query string; the first `toString` that throws aborts the
loop (and the whole async function body) with its error. -/
def serializeEntries : List (String × JsValue) → Except JsError (List (String × String))
  | [] => .ok []
  | (k, v) :: rest =>
    match jsToString v with
    | .error e => .error e
    | .ok s => (serializeEntries rest).map fun qs => (k, s) :: qs

/-- The constant of source lines 8-9: the base URL, overridable by the
environment variable `REACT_APP_API_BASE_URL` (`env` here), with the `||`
default applying to an unset or empty variable. -/
def API_BASE_URL (env : Option String) : String :=
  match env with
  | some s => if s = "" then "http://localhost:5000" else s
  | none => "http://localhost:5000"

/-- A request URL as built by `new URL(...)` plus `searchParams.append`:
the base part and the ordered list of appended query parameters. -/
structure UrlModel where
  base : String
  query : List (String × String)
deriving DecidableEq, Repr

/-- The URL construction of `listReservations` (source lines 63-70): the
reservations URL, with one query parameter appended per entry of the
filter mapping when `params` is truthy.  `Except.error` is the rejection
of the async function when a `toString` call in the loop throws. -/
def reservationsUrl (env : Option String) (params : JsValue) :
    Except JsError UrlModel :=
  let base := API_BASE_URL env ++ "/reservations"
  if truthy params then
    match serializeEntries (jsEntries params) with
    | .error e => .error e
    | .ok qs => .ok ⟨base, qs⟩
  else .ok ⟨base, []⟩

/-- Functional update of a field of an object (JavaScript assignment
`r.k = x`): replaces the first binding of `k`, or appends one. -/
def setField : List (String × JsValue) → String → JsValue → List (String × JsValue)
  | [], k, x => [(k, x)]
  | (k2, v) :: rest, k, x =>
    if k2 = k then (k, x) :: rest else (k2, v) :: setField rest k x

/-- Applies a string function to the string field `k` of an object,
leaving every other value unchanged. -/
def updateStrField (k : String) (f : String → String) : JsValue → JsValue
  | .obj fields =>
    match fields.lookup k with
    | some (.str s) => .obj (setField fields k (.str (f s)))
    | _ => .obj fields
  | v => v

/-- Modelled from the spec: the utility `format-reservation-date`
(imported at source line 5 but not itself under `src/`); the spec calls it
the first, date-normalization stage of the formatting pipeline, which
normalizes the `reservation_date` field of each reservation to the ISO
date output format (YYYY-MM-DD, the first ten characters of the raw
string). -/
def formatReservationDate : JsValue → JsValue
  | .arr xs => .arr (xs.map (updateStrField "reservation_date" fun s => s.take 10))
  | v => updateStrField "reservation_date" (fun s => s.take 10) v

/-- Modelled from the spec: the utility `format-reservation-time`
(imported at source line 6 but not itself under `src/`); the spec calls it
the second, time-normalization stage of the formatting pipeline, which
normalizes the `reservation_time` field of each reservation to the HH:MM
output format (the first five characters of the raw string). -/
def formatReservationTime : JsValue → JsValue
  | .arr xs => .arr (xs.map (updateStrField "reservation_time" fun s => s.take 5))
  | v => updateStrField "reservation_time" (fun s => s.take 5) v

/-- The body of `listReservations` (source lines 61-77) with the two
formatting functions as parameters: build the URL (a throw there rejects
the async function before any fetch), delegate to `fetchJson` with
fallback `[]`, then chain `.then(fmtDate).then(fmtTime)`, which applies
the formatters on the resolution path only and passes a rejection
through unchanged. -/
def listReservationsWith (fmtDate fmtTime : JsValue → JsValue)
    (env : Option String) (params : JsValue) (outcome : FetchOutcome) :
    Except RejectVal JsValue × List String :=
  match reservationsUrl env params with
  | .error e => (.error (.err e), [])
  | .ok _ =>
    match fetchJson outcome (.arr []) with
    | (.error e, log) => (.error e, log)
    | (.ok v, log) => (.ok (fmtTime (fmtDate v)), log)

/-- `listReservations` (source lines 61-77): the transport core on the
reservations URL with fallback `[]`, post-processed by
`formatReservationDate` then `formatReservationTime`. -/
def listReservations (env : Option String) (params : JsValue)
    (outcome : FetchOutcome) : Except RejectVal JsValue × List String :=
  listReservationsWith formatReservationDate formatReservationTime env params outcome

/-- A request descriptor: the URL and method an operation builds.  The
shared `Content-Type: application/json` header and the JSON-serialized
`\x7bdata: ...\x7d` bodies of the write operations are fixed by the source and
not inspected by any property below. -/
structure Request where
  url : String
  method : String
deriving DecidableEq, Repr

/-- `createReservation` (source lines 81-86): POST to `/reservations`
with body `\x7bdata: reservation\x7d`, fallback `[]`. -/
def createReservation (env : Option String) (reservation : JsValue)
    (outcome : FetchOutcome) :
    Request × (Except RejectVal JsValue × List String) :=
  (⟨API_BASE_URL env ++ "/reservations", "POST"⟩, fetchJson outcome (.arr []))

/-- `listTables` (source lines 89-93): GET to `/tables`, fallback `[]`. -/
def listTables (env : Option String) (outcome : FetchOutcome) :
    Request × (Except RejectVal JsValue × List String) :=
  (⟨API_BASE_URL env ++ "/tables", "GET"⟩, fetchJson outcome (.arr []))

/-- `createTable` (source lines 96-100): POST to `/tables` with body
`\x7bdata: table\x7d`, fallback `[]`. -/
def createTable (env : Option String) (table : JsValue)
    (outcome : FetchOutcome) :
    Request × (Except RejectVal JsValue × List String) :=
  (⟨API_BASE_URL env ++ "/tables", "POST"⟩, fetchJson outcome (.arr []))

/-- `editReservation` (source lines 103-107): PUT to
`/reservations/${reservation_id}` with body `\x7bdata: reservation\x7d`,
fallback `[]`. -/
def editReservation (env : Option String) (reservation_id reservation : JsValue)
    (outcome : FetchOutcome) :
    Request × (Except RejectVal JsValue × List String) :=
  (⟨API_BASE_URL env ++ "/reservations/" ++ jsTemplate reservation_id, "PUT"⟩,
    fetchJson outcome (.arr []))

/-- `updateReservationStatus` (source lines 110-114): PUT to
`/reservations/${reservation_id}/status` with body
`\x7bdata: \x7bstatus\x7d\x7d`, fallback `[]`. -/
def updateReservationStatus (env : Option String) (reservation_id status : JsValue)
    (outcome : FetchOutcome) :
    Request × (Except RejectVal JsValue × List String) :=
  (⟨API_BASE_URL env ++ "/reservations/" ++ jsTemplate reservation_id ++ "/status", "PUT"⟩,
    fetchJson outcome (.arr []))

/-- `seatReservation` (source lines 117-121): PUT to
`/tables/${table_id}/seat` with body `\x7bdata: \x7breservation_id\x7d\x7d`,
fallback `[]`. -/
def seatReservation (env : Option String) (reservation_id table_id : JsValue)
    (outcome : FetchOutcome) :
    Request × (Except RejectVal JsValue × List String) :=
  (⟨API_BASE_URL env ++ "/tables/" ++ jsTemplate table_id ++ "/seat", "PUT"⟩,
    fetchJson outcome (.arr []))

/-- `finishTable` (source lines 124-128): DELETE to
`/tables/${table_id}/seat` with no body, fallback `[]`. -/
def finishTable (env : Option String) (table_id : JsValue)
    (outcome : FetchOutcome) :
    Request × (Except RejectVal JsValue × List String) :=
  (⟨API_BASE_URL env ++ "/tables/" ++ jsTemplate table_id ++ "/seat", "DELETE"⟩,
    fetchJson outcome (.arr []))

/-- The catch block on a non-abort error: log the stack and re-throw. -/
theorem catchBlock_nonabort (e : JsError) (onCancel : JsValue)
    (he : e.name ≠ "AbortError") :
    catchBlock e onCancel = (.error (.err e), [e.stack]) := by
  unfold catchBlock
  simp [he]

/-- The catch block on an abort error: resolve to the fallback, no log. -/
theorem catchBlock_abort (e : JsError) (onCancel : JsValue)
    (he : e.name = "AbortError") :
    catchBlock e onCancel = (.ok onCancel, []) := by
  unfold catchBlock
  simp [he]

/-- Success path of the transport core: status not 204, no truthy `error`
field, the promise resolves to the `data` field. -/
theorem fetchJson_success (status : Nat) (payload Y ef onCancel : JsValue)
    (hst : status ≠ 204) (herr : getField payload "error" = .ok ef)
    (hef : truthy ef = false) (hdata : getField payload "data" = .ok Y) :
    fetchJson (.response status (.ok payload)) onCancel = (.ok Y, []) := by
  simp [fetchJson, hst, herr, hef, hdata]

/-- Backend-error path of the transport core: status not 204, truthy
`error` field, the promise rejects with the message object. -/
theorem fetchJson_error_field (status : Nat) (payload ef onCancel : JsValue)
    (hst : status ≠ 204) (herr : getField payload "error" = .ok ef)
    (hef : truthy ef = true) :
    fetchJson (.response status (.ok payload)) onCancel
      = (.error (.messageObj ef), []) := by
  simp [fetchJson, hst, herr, hef]

/-- Unfolding of `listReservationsWith` once the URL is known to build. -/
theorem listReservationsWith_core (fmtDate fmtTime : JsValue → JsValue)
    (env : Option String) (params : JsValue) (u : UrlModel)
    (outcome : FetchOutcome)
    (hurl : reservationsUrl env params = .ok u) :
    listReservationsWith fmtDate fmtTime env params outcome =
      match fetchJson outcome (.arr []) with
      | (.error e, log) => (.error e, log)
      | (.ok v, log) => (.ok (fmtTime (fmtDate v)), log) := by
  unfold listReservationsWith
  rw [hurl]

/-- Claim C1 (counterexample): a response with HTTP status 204 whose body
parses to an object with the non-empty error string "boom" does not make
`fetchJson` reject with the message object; it resolves to `null`, because
the 204 check precedes the envelope check.  This refutes the clause
"regardless of the HTTP status code of the response". -/
theorem fetchJson_error_envelope_204_counterexample :
    getField (JsValue.obj [("error", JsValue.str "boom")]) "error"
      = Except.ok (JsValue.str "boom")
    ∧ ("boom" : String) ≠ ""
    ∧ (fetchJson (.response 204 (.ok (.obj [("error", .str "boom")]))) (.arr [])).1
        = Except.ok JsValue.null
    ∧ (fetchJson (.response 204 (.ok (.obj [("error", .str "boom")]))) (.arr [])).1
        ≠ Except.error (.messageObj (.str "boom")) :=
  ⟨rfl, by decide, rfl, fun h => Except.noConfusion h⟩

/-- Claim C1 (amended): for every response with HTTP status other than 204
whose parsed JSON body has a non-empty `error` string field, `fetchJson`
rejects with an object equal to `\x7bmessage: <that error string>\x7d`. -/
theorem fetchJson_error_envelope_rejects (status : Nat)
    (payload onCancel : JsValue) (s : String) (hst : status ≠ 204)
    (herr : getField payload "error" = .ok (.str s)) (hs : s ≠ "") :
    (fetchJson (.response status (.ok payload)) onCancel).1
      = .error (.messageObj (.str s)) := by
  have h := fetchJson_error_field status payload (.str s) onCancel hst herr
    (by simp [truthy, hs])
  rw [h]

/-- Witness for the amended claim C1, at status 400 and error string
"Oops". -/
theorem fetchJson_error_envelope_rejects_witness :
    (fetchJson (.response 400 (.ok (.obj [("error", .str "Oops")]))) .undefined).1
      = .error (.messageObj (.str "Oops")) :=
  fetchJson_error_envelope_rejects 400 (.obj [("error", .str "Oops")]) .undefined
    "Oops" (by decide) rfl (by decide)

/-- Claim C4: every response with HTTP status 204 makes `fetchJson`
resolve to `null`, with nothing logged, whatever the body is: the result
is the same even when the body parse result is a failure or an error
envelope, so the body parse is never consulted. -/
theorem fetchJson_204_resolves_null (body : Except JsError JsValue)
    (onCancel : JsValue) :
    fetchJson (.response 204 body) onCancel = (.ok .null, []) := rfl

/-- Claim C6: every failure of the underlying call whose error name is not
`AbortError` (a fetch rejection, or a body-parse failure on a non-204
response) makes `fetchJson` log the error stack and re-reject with the
original error object. -/
theorem fetchJson_logs_and_rethrows (e : JsError) (onCancel : JsValue)
    (status : Nat) (he : e.name ≠ "AbortError") (hst : status ≠ 204) :
    fetchJson (.networkError e) onCancel = (.error (.err e), [e.stack])
    ∧ fetchJson (.response status (.error e)) onCancel
        = (.error (.err e), [e.stack]) := by
  refine ⟨catchBlock_nonabort e onCancel he, ?_⟩
  simp [fetchJson, hst, catchBlock_nonabort e onCancel he]

/-- Witness for claim C6, at a network-level `TypeError` and status 500. -/
theorem fetchJson_logs_and_rethrows_witness :
    fetchJson (.networkError ⟨"TypeError", "trace"⟩) (.arr [])
      = (.error (.err ⟨"TypeError", "trace"⟩), ["trace"])
    ∧ fetchJson (.response 500 (.error ⟨"TypeError", "trace"⟩)) (.arr [])
      = (.error (.err ⟨"TypeError", "trace"⟩), ["trace"]) :=
  fetchJson_logs_and_rethrows ⟨"TypeError", "trace"⟩ (.arr []) 500
    (by decide) (by decide)

/-- Claim C9: on a non-204 response whose parsed body is an object with
both a truthy `error` field and a `data` field, `fetchJson` rejects with
the message object: the error check precedes data extraction. -/
theorem fetchJson_error_precedence (status : Nat)
    (fields : List (String × JsValue)) (ev dv onCancel : JsValue)
    (hst : status ≠ 204) (hev : fields.lookup "error" = some ev)
    (htr : truthy ev = true) (hdv : fields.lookup "data" = some dv) :
    fetchJson (.response status (.ok (.obj fields))) onCancel
      = (.error (.messageObj ev), []) := by
  refine fetchJson_error_field status (.obj fields) ev onCancel hst ?_ htr
  simp [getField, hev]

/-- Witness for claim C9, at a payload carrying both `error` and `data`. -/
theorem fetchJson_error_precedence_witness :
    fetchJson (.response 200 (.ok
        (.obj [("error", .str "bad"), ("data", .num 5)]))) .undefined
      = (.error (.messageObj (.str "bad")), []) :=
  fetchJson_error_precedence 200 [("error", .str "bad"), ("data", .num 5)]
    (.str "bad") (.num 5) .undefined (by decide) rfl rfl rfl

/-- When no entry of the filter mapping carries `null` or `undefined`,
the `forEach` loop succeeds and appends exactly the string conversion of
each entry, in order. -/
theorem serializeEntries_map (entries : List (String × JsValue))
    (h : ∀ p ∈ entries, p.2 ≠ JsValue.null ∧ p.2 ≠ JsValue.undefined) :
    serializeEntries entries
      = .ok (entries.map fun p => (p.1, joinElemString p.2)) := by
  induction entries with
  | nil => rfl
  | cons hd tl ih =>
    obtain ⟨k, v⟩ := hd
    have hv := h _ (List.mem_cons_self _ _)
    have htl := ih fun p hp => h p (List.mem_cons_of_mem _ hp)
    have hts : jsToString v = .ok (joinElemString v) := by
      cases v
      case null => exact absurd rfl hv.1
      case undefined => exact absurd rfl hv.2
      all_goals rfl
    simp [serializeEntries, hts, htl, Except.map]

/-- Claim C2 (counterexample): on a 200 response with payload
`\x7bdata: [\x7breservation_time: "18:30:00"\x7d]\x7d` the transport core resolves to
the raw `data` value, but `listReservations` resolves to the formatted
value, whose `reservation_time` is "18:30" -- not deep-equal to the raw
`data` value.  This refutes the clause "(including the list-reservations
operation)". -/
theorem listReservations_formats_counterexample :
    (fetchJson (.response 200 (.ok (.obj [("data",
        .arr [.obj [("reservation_time", .str "18:30:00")]])]))) (.arr [])).1
      = .ok (.arr [.obj [("reservation_time", .str "18:30:00")]])
    ∧ (listReservations none .undefined (.response 200 (.ok (.obj [("data",
        .arr [.obj [("reservation_time", .str "18:30:00")]])])))).1
      = .ok (.arr [.obj [("reservation_time", .str "18:30")]])
    ∧ (listReservations none .undefined (.response 200 (.ok (.obj [("data",
        .arr [.obj [("reservation_time", .str "18:30:00")]])])))).1
      ≠ .ok (.arr [.obj [("reservation_time", .str "18:30:00")]]) := by
  refine ⟨rfl, rfl, ?_⟩
  intro h
  have h2 := Except.ok.inj h
  have h3 : JsValue.arr [JsValue.obj [("reservation_time", JsValue.str "18:30")]]
      = JsValue.arr [JsValue.obj [("reservation_time", JsValue.str "18:30:00")]] := h2
  simp at h3

/-- Claim C2 (amended): on a non-204 response whose parsed body has no
truthy `error` field and a `data` field equal to `Y`, every operation of
the catalog resolves to a value deep-equal to `Y`, except
`listReservations`, which resolves to `Y` after the date-then-time
formatting pipeline. -/
theorem operations_resolve_data (env : Option String) (status : Nat)
    (payload Y ef r t rid st tid params : JsValue) (u : UrlModel)
    (outcome : FetchOutcome)
    (ho : outcome = .response status (.ok payload))
    (hst : status ≠ 204)
    (herr : getField payload "error" = .ok ef) (hef : truthy ef = false)
    (hdata : getField payload "data" = .ok Y)
    (hurl : reservationsUrl env params = .ok u) :
    (fetchJson outcome (.arr [])).1 = .ok Y
    ∧ (createReservation env r outcome).2.1 = .ok Y
    ∧ (listTables env outcome).2.1 = .ok Y
    ∧ (createTable env t outcome).2.1 = .ok Y
    ∧ (editReservation env rid r outcome).2.1 = .ok Y
    ∧ (updateReservationStatus env rid st outcome).2.1 = .ok Y
    ∧ (seatReservation env rid tid outcome).2.1 = .ok Y
    ∧ (finishTable env tid outcome).2.1 = .ok Y
    ∧ (listReservations env params outcome).1
        = .ok (formatReservationTime (formatReservationDate Y)) := by
  subst ho
  have hcore := fetchJson_success status payload Y ef (.arr []) hst herr hef hdata
  have hlist : listReservations env params (.response status (.ok payload))
      = (.ok (formatReservationTime (formatReservationDate Y)), []) := by
    unfold listReservations
    rw [listReservationsWith_core _ _ env params u _ hurl, hcore]
  exact ⟨by rw [hcore], by simp [createReservation, hcore],
    by simp [listTables, hcore], by simp [createTable, hcore],
    by simp [editReservation, hcore], by simp [updateReservationStatus, hcore],
    by simp [seatReservation, hcore], by simp [finishTable, hcore],
    by rw [hlist]⟩

/-- Witness for the amended claim C2, at a 200 response with payload
`\x7bdata: 7\x7d` and no filter. -/
theorem operations_resolve_data_witness :
    (fetchJson (.response 200 (.ok (.obj [("data", .num 7)]))) (.arr [])).1
      = .ok (.num 7)
    ∧ (createReservation none .undefined
        (.response 200 (.ok (.obj [("data", .num 7)])))).2.1 = .ok (.num 7)
    ∧ (listTables none
        (.response 200 (.ok (.obj [("data", .num 7)])))).2.1 = .ok (.num 7)
    ∧ (createTable none .undefined
        (.response 200 (.ok (.obj [("data", .num 7)])))).2.1 = .ok (.num 7)
    ∧ (editReservation none .undefined .undefined
        (.response 200 (.ok (.obj [("data", .num 7)])))).2.1 = .ok (.num 7)
    ∧ (updateReservationStatus none .undefined .undefined
        (.response 200 (.ok (.obj [("data", .num 7)])))).2.1 = .ok (.num 7)
    ∧ (seatReservation none .undefined .undefined
        (.response 200 (.ok (.obj [("data", .num 7)])))).2.1 = .ok (.num 7)
    ∧ (finishTable none .undefined
        (.response 200 (.ok (.obj [("data", .num 7)])))).2.1 = .ok (.num 7)
    ∧ (listReservations none .undefined
        (.response 200 (.ok (.obj [("data", .num 7)])))).1
        = .ok (formatReservationTime (formatReservationDate (.num 7))) :=
  operations_resolve_data none 200 (.obj [("data", .num 7)]) (.num 7) .undefined
    .undefined .undefined .undefined .undefined .undefined .undefined
    ⟨"http://localhost:5000/reservations", []⟩
    (.response 200 (.ok (.obj [("data", .num 7)]))) rfl (by decide)
    rfl rfl rfl rfl

/-- Claim C3: when the fetch rejects with an error named `AbortError`
(the cancellation signal was aborted), no operation rejects: the
transport core and every operation resolve to the empty-collection
fallback `[]` the operations supply. -/
theorem abort_resolves_fallback (e : JsError) (env : Option String)
    (r t rid st tid params : JsValue) (u : UrlModel)
    (he : e.name = "AbortError") (hurl : reservationsUrl env params = .ok u) :
    (fetchJson (.networkError e) (.arr [])).1 = .ok (.arr [])
    ∧ (createReservation env r (.networkError e)).2.1 = .ok (.arr [])
    ∧ (listTables env (.networkError e)).2.1 = .ok (.arr [])
    ∧ (createTable env t (.networkError e)).2.1 = .ok (.arr [])
    ∧ (editReservation env rid r (.networkError e)).2.1 = .ok (.arr [])
    ∧ (updateReservationStatus env rid st (.networkError e)).2.1 = .ok (.arr [])
    ∧ (seatReservation env rid tid (.networkError e)).2.1 = .ok (.arr [])
    ∧ (finishTable env tid (.networkError e)).2.1 = .ok (.arr [])
    ∧ (listReservations env params (.networkError e)).1 = .ok (.arr []) := by
  have hcore : fetchJson (.networkError e) (.arr []) = (.ok (.arr []), []) :=
    catchBlock_abort e (.arr []) he
  have hlist : listReservations env params (.networkError e)
      = (.ok (.arr []), []) := by
    unfold listReservations
    rw [listReservationsWith_core _ _ env params u _ hurl, hcore]
    rfl
  exact ⟨by rw [hcore], by simp [createReservation, hcore],
    by simp [listTables, hcore], by simp [createTable, hcore],
    by simp [editReservation, hcore], by simp [updateReservationStatus, hcore],
    by simp [seatReservation, hcore], by simp [finishTable, hcore],
    by rw [hlist]⟩

/-- Witness for claim C3, at an aborted fetch with no filter. -/
theorem abort_resolves_fallback_witness :
    (fetchJson (.networkError ⟨"AbortError", "t4"⟩) (.arr [])).1 = .ok (.arr [])
    ∧ (createReservation none .undefined (.networkError ⟨"AbortError", "t4"⟩)).2.1
        = .ok (.arr [])
    ∧ (listTables none (.networkError ⟨"AbortError", "t4"⟩)).2.1 = .ok (.arr [])
    ∧ (createTable none .undefined (.networkError ⟨"AbortError", "t4"⟩)).2.1
        = .ok (.arr [])
    ∧ (editReservation none .undefined .undefined (.networkError ⟨"AbortError", "t4"⟩)).2.1
        = .ok (.arr [])
    ∧ (updateReservationStatus none .undefined .undefined
        (.networkError ⟨"AbortError", "t4"⟩)).2.1 = .ok (.arr [])
    ∧ (seatReservation none .undefined .undefined (.networkError ⟨"AbortError", "t4"⟩)).2.1
        = .ok (.arr [])
    ∧ (finishTable none .undefined (.networkError ⟨"AbortError", "t4"⟩)).2.1
        = .ok (.arr [])
    ∧ (listReservations none .undefined (.networkError ⟨"AbortError", "t4"⟩)).1
        = .ok (.arr []) :=
  abort_resolves_fallback ⟨"AbortError", "t4"⟩ none .undefined .undefined .undefined .undefined
    .undefined .undefined ⟨"http://localhost:5000/reservations", []⟩ rfl rfl

/-- Claim C5: for every pair of formatting functions, `listReservations`
post-processing runs only on the resolution path: if the transport core
rejects, the operation rejects with the very same value and log, whatever
the formatters are (they are never invoked); if the core resolves to `Y`,
the operation resolves to the date formatter applied first and the time
formatter applied second, and `listReservations` itself is this pipeline
instantiated with `formatReservationDate` then `formatReservationTime`. -/
theorem listReservations_pipeline (fmtDate fmtTime : JsValue → JsValue)
    (env : Option String) (params : JsValue) (u : UrlModel)
    (outcome : FetchOutcome)
    (hurl : reservationsUrl env params = .ok u) :
    (∀ e log, fetchJson outcome (.arr []) = (.error e, log) →
      listReservationsWith fmtDate fmtTime env params outcome = (.error e, log))
    ∧ (∀ Y log, fetchJson outcome (.arr []) = (.ok Y, log) →
      listReservationsWith fmtDate fmtTime env params outcome
        = (.ok (fmtTime (fmtDate Y)), log))
    ∧ listReservations env params outcome
        = listReservationsWith formatReservationDate formatReservationTime
            env params outcome := by
  refine ⟨?_, ?_, rfl⟩
  · intro e log h
    rw [listReservationsWith_core _ _ env params u _ hurl, h]
  · intro Y log h
    rw [listReservationsWith_core _ _ env params u _ hurl, h]

/-- Witness for claim C5: with formatters that would destroy any value
they touch, a transport-core rejection still propagates unchanged. -/
theorem listReservations_pipeline_witness :
    listReservationsWith (fun _ => JsValue.null) (fun _ => JsValue.null)
      none .undefined (.networkError ⟨"TypeError", "trace2"⟩)
      = (.error (.err ⟨"TypeError", "trace2"⟩), ["trace2"]) :=
  (listReservations_pipeline (fun _ => .null) (fun _ => .null) none .undefined
      ⟨"http://localhost:5000/reservations", []⟩
      (.networkError ⟨"TypeError", "trace2"⟩) rfl).1
    (.err ⟨"TypeError", "trace2"⟩) ["trace2"] rfl

/-- Claim C7: the filter mapping is serialized entry by entry: when no
value of the mapping is `null` or `undefined`, the reservations URL
carries exactly the string conversion of each entry, in order, one
appearance per entry; in particular the filter
`\x7bdate: "2023-05-01"\x7d` yields the query list `[("date", "2023-05-01")]`,
in which `date=2023-05-01` appears exactly once. -/
theorem listReservations_query_params (env : Option String)
    (entries : List (String × JsValue))
    (h : ∀ p ∈ entries, p.2 ≠ JsValue.null ∧ p.2 ≠ JsValue.undefined) :
    reservationsUrl env (.obj entries)
      = .ok ⟨API_BASE_URL env ++ "/reservations",
          entries.map fun p => (p.1, joinElemString p.2)⟩
    ∧ reservationsUrl none (.obj [("date", .str "2023-05-01")])
      = .ok ⟨"http://localhost:5000/reservations", [("date", "2023-05-01")]⟩
    ∧ List.count ("date", "2023-05-01")
        (UrlModel.query ⟨"http://localhost:5000/reservations",
          [("date", "2023-05-01")]⟩) = 1 := by
  refine ⟨?_, rfl, rfl⟩
  simp [reservationsUrl, truthy, jsEntries, serializeEntries_map entries h]

/-- Witness for claim C7, at the two allowed filter keys. -/
theorem listReservations_query_params_witness :
    reservationsUrl (some "http://api.example.com")
        (.obj [("date", .str "2023-05-01"), ("mobile_number", .str "555-1212")])
      = .ok ⟨"http://api.example.com/reservations",
          [("date", "2023-05-01"), ("mobile_number", "555-1212")]⟩
    ∧ reservationsUrl none (.obj [("date", .str "2023-05-01")])
      = .ok ⟨"http://localhost:5000/reservations", [("date", "2023-05-01")]⟩
    ∧ List.count ("date", "2023-05-01")
        (UrlModel.query ⟨"http://localhost:5000/reservations",
          [("date", "2023-05-01")]⟩) = 1 :=
  listReservations_query_params (some "http://api.example.com")
    [("date", .str "2023-05-01"), ("mobile_number", .str "555-1212")]
    (by
      intro p hp
      simp only [List.mem_cons, List.not_mem_nil, or_false] at hp
      rcases hp with rfl | rfl
      · exact ⟨fun hh => JsValue.noConfusion hh, fun hh => JsValue.noConfusion hh⟩
      · exact ⟨fun hh => JsValue.noConfusion hh, fun hh => JsValue.noConfusion hh⟩)

/-- Claim C8: in this embedding every operation is a total function into
the settled state of the promise it returns, so a synchronous throw has
no representation: even on the filter `\x7bdate: null\x7d`, whose value has no
`toString`, `listReservations` delivers the `TypeError` as a rejection of
the returned promise (whatever the network would have answered -- the
fetch is never reached), and every other operation returns exactly the
promise produced by the transport core. -/
theorem operations_never_throw (env : Option String) (outcome : FetchOutcome)
    (r t rid st tid : JsValue) :
    (listReservations env (.obj [("date", JsValue.null)]) outcome).1
      = .error (.err ⟨"TypeError", "TypeError: cannot read toString of null"⟩)
    ∧ (createReservation env r outcome).2 = fetchJson outcome (.arr [])
    ∧ (listTables env outcome).2 = fetchJson outcome (.arr [])
    ∧ (createTable env t outcome).2 = fetchJson outcome (.arr [])
    ∧ (editReservation env rid r outcome).2 = fetchJson outcome (.arr [])
    ∧ (updateReservationStatus env rid st outcome).2 = fetchJson outcome (.arr [])
    ∧ (seatReservation env rid tid outcome).2 = fetchJson outcome (.arr [])
    ∧ (finishTable env tid outcome).2 = fetchJson outcome (.arr []) :=
  ⟨rfl, rfl, rfl, rfl, rfl, rfl, rfl, rfl⟩

/-- Claim C10: when the fetch of a `listReservations` call is aborted, the
`[]` fallback produced by the transport core is itself passed through both
formatting functions, date stage first, so the caller observes the
formatter output on `[]` -- under the modelled formatters, `[]` itself. -/
theorem cancelled_list_formats_fallback (fmtDate fmtTime : JsValue → JsValue)
    (env : Option String) (params : JsValue) (u : UrlModel) (e : JsError)
    (he : e.name = "AbortError") (hurl : reservationsUrl env params = .ok u) :
    listReservationsWith fmtDate fmtTime env params (.networkError e)
      = (.ok (fmtTime (fmtDate (.arr []))), [])
    ∧ listReservations env params (.networkError e)
      = (.ok (formatReservationTime (formatReservationDate (.arr []))), []) := by
  have hcore : fetchJson (.networkError e) (.arr []) = (.ok (.arr []), []) :=
    catchBlock_abort e (.arr []) he
  constructor
  · rw [listReservationsWith_core _ _ env params u _ hurl, hcore]
  · unfold listReservations
    rw [listReservationsWith_core _ _ env params u _ hurl, hcore]

/-- Witness for claim C10: formatters that wrap and replace values show
that the fallback really flows through both of them, in order. -/
theorem cancelled_list_formats_fallback_witness :
    listReservationsWith (fun _ => JsValue.num 1) (fun v => JsValue.arr [v])
      none .undefined (.networkError ⟨"AbortError", "t3"⟩)
      = (.ok (.arr [.num 1]), [])
    ∧ listReservations none .undefined (.networkError ⟨"AbortError", "t3"⟩)
      = (.ok (.arr []), []) :=
  cancelled_list_formats_fallback (fun _ => .num 1) (fun v => .arr [v]) none
    .undefined ⟨"http://localhost:5000/reservations", []⟩ ⟨"AbortError", "t3"⟩
    rfl rfl
